import Mathlib

/-!
Verification development for the TaskBoard `mcp-agent-service`.

The Python service (`mcp-agent-service/main.py`) is shallowly embedded below:
pure helpers become Lean functions; the mutable `CircuitBreaker` dataclass
becomes explicit state passing; `time.time()` becomes an explicit integer
clock supplied by the caller; exception-raising paths become explicit
outcome values.
-/

namespace TaskBoard

/-! ## Python string primitives

`str.split(sep)` (for a non-empty separator), `in`, `str.strip()` and
`str.lower()` are modelled over `List Char` with structural recursion.
-/

/-- Boolean test that `pat` is an initial segment of `s`. -/
def startsWithL : List Char → List Char → Bool
  | [], _ => true
  | _ :: _, [] => false
  | p :: ps, c :: cs => p == c && startsWithL ps cs

/-- Suffix of `s` after the first occurrence of `pat`; `none` when `pat`
does not occur.  `(afterFirst pat s).isSome` is Python's `pat in s`
for non-empty `pat`. -/
def afterFirst (pat : List Char) : List Char → Option (List Char)
  | [] => none
  | c :: cs =>
    if startsWithL pat (c :: cs) then some (List.drop pat.length (c :: cs))
    else afterFirst pat cs

/-- Longest prefix of `s` not containing `pat`; the whole list when `pat`
does not occur.  This is Python's `s.split(pat)[0]` for non-empty `pat`. -/
def upToFirst (pat : List Char) : List Char → List Char
  | [] => []
  | c :: cs =>
    if startsWithL pat (c :: cs) then []
    else c :: upToFirst pat cs

/-- Python's `pat in s` for non-empty `pat`. -/
def containsSub (s pat : String) : Bool :=
  (afterFirst pat.data s.data).isSome

/-- Python's `s.split(sep)[0]` for non-empty `sep`. -/
def pySplitGet0 (sep s : String) : String :=
  String.mk (upToFirst sep.data s.data)

/-- Python's `s.split(sep)[1]` for a non-empty `sep` occurring in `s`:
the segment strictly between the first and second occurrence of `sep`
(to the end of `s` when there is no second occurrence). -/
def pySplitGet1 (sep s : String) : String :=
  String.mk (upToFirst sep.data ((afterFirst sep.data s.data).getD []))

/-- Python whitespace for `str.strip()`. -/
def isSpaceChar (c : Char) : Bool :=
  c == ' ' || c == '\t' || c == '\n' || c == '\r' || c == '\x0b' || c == '\x0c'

/-- Drop leading whitespace characters. -/
def dropLeadingSpace : List Char → List Char
  | [] => []
  | c :: cs => if isSpaceChar c then dropLeadingSpace cs else c :: cs

/-- Python's `s.strip()`. -/
def pyStrip (s : String) : String :=
  String.mk ((dropLeadingSpace ((dropLeadingSpace s.data).reverse)).reverse)

/-- Python's `s.lower()` (ASCII case folding, which covers every string the
service lowercases). -/
def pyLower (s : String) : String :=
  String.mk (s.data.map Char.toLower)

/-! ## CircuitBreaker (main.py lines 49-84)

`time.time()` is modelled by an explicit `now : Int` argument at each call
that reads the clock. -/

/-- The `CircuitBreakerState` enumeration. -/
inductive CBState
  | closed
  | opened
  | halfOpen
  deriving DecidableEq

/-- The `.value` string of each `CircuitBreakerState` member. -/
def state_value : CBState → String
  | CBState.closed => "closed"
  | CBState.opened => "open"
  | CBState.halfOpen => "half_open"

/-- The `CircuitBreaker` dataclass with its default field values. -/
structure CircuitBreaker where
  failure_threshold : Nat := 5
  recovery_timeout : Int := 60
  failure_count : Nat := 0
  last_failure_time : Int := 0
  state : CBState := CBState.closed
  deriving DecidableEq

/-- The module-level `mcp_circuit_breaker = CircuitBreaker()` instance,
as freshly constructed. -/
def CircuitBreaker.init : CircuitBreaker := {}

/-- `CircuitBreaker.can_execute`, returning the boolean result and the
(possibly mutated) breaker. -/
def can_execute (cb : CircuitBreaker) (now : Int) : Bool × CircuitBreaker :=
  match cb.state with
  | CBState.closed => (true, cb)
  | CBState.opened =>
    if now - cb.last_failure_time > cb.recovery_timeout then
      (true, { cb with state := CBState.halfOpen })
    else
      (false, cb)
  | CBState.halfOpen => (true, cb)

/-- `CircuitBreaker.record_success`. -/
def record_success (cb : CircuitBreaker) : CircuitBreaker :=
  { cb with failure_count := 0, state := CBState.closed }

/-- `CircuitBreaker.record_failure`, with `now` the value of `time.time()`. -/
def record_failure (cb : CircuitBreaker) (now : Int) : CircuitBreaker :=
  { cb with
    failure_count := cb.failure_count + 1,
    last_failure_time := now,
    state :=
      if cb.failure_threshold ≤ cb.failure_count + 1 then CBState.opened
      else cb.state }

/-- The three mutating operations of the breaker, as an operation alphabet. -/
inductive CBOp
  | canExec (now : Int)
  | recSuccess
  | recFail (now : Int)

/-- Apply one breaker operation (for `canExec`, keep the mutated breaker). -/
def applyOp (cb : CircuitBreaker) : CBOp → CircuitBreaker
  | CBOp.canExec now => (can_execute cb now).2
  | CBOp.recSuccess => record_success cb
  | CBOp.recFail now => record_failure cb now

/-- Apply a sequence of breaker operations in order. -/
def applyOps (cb : CircuitBreaker) : List CBOp → CircuitBreaker
  | [] => cb
  | op :: ops => applyOps (applyOp cb op) ops

/-- A breaker state reachable from the freshly constructed instance. -/
def Reachable (cb : CircuitBreaker) : Prop :=
  ∃ ops : List CBOp, cb = applyOps CircuitBreaker.init ops

/-- `n` consecutive `record_failure` calls, the `i`-th at time `tf i`. -/
def iterFail (tf : Nat → Int) : Nat → CircuitBreaker → CircuitBreaker
  | 0, cb => cb
  | n + 1, cb => record_failure (iterFail tf n cb) (tf n)

/-- Invariant of the breaker: OPEN implies the failure count reached the
threshold. -/
def CBInv (cb : CircuitBreaker) : Prop :=
  cb.state = CBState.opened → cb.failure_threshold ≤ cb.failure_count

/-- Strengthened invariant: any non-CLOSED state implies the failure count
reached the threshold. -/
def CBInvStrong (cb : CircuitBreaker) : Prop :=
  cb.state ≠ CBState.closed → cb.failure_threshold ≤ cb.failure_count

theorem cbInvStrong_applyOp (cb : CircuitBreaker) (op : CBOp)
    (h : CBInvStrong cb) : CBInvStrong (applyOp cb op) := by
  cases op with
  | canExec now =>
    simp only [CBInvStrong, applyOp] at *
    cases hs : cb.state with
    | closed => simp [can_execute, hs]
    | opened =>
      have hcount := h (by simp [hs])
      simp only [can_execute, hs]
      split <;> simp_all
    | halfOpen =>
      have hcount := h (by simp [hs])
      simp [can_execute, hs, hcount]
  | recSuccess =>
    simp [CBInvStrong, applyOp, record_success]
  | recFail now =>
    simp only [CBInvStrong, applyOp, record_failure] at *
    split
    · intro _; omega
    · intro hne
      have := h hne
      omega

theorem cbInvStrong_applyOps (ops : List CBOp) :
    ∀ cb : CircuitBreaker, CBInvStrong cb → CBInvStrong (applyOps cb ops) := by
  induction ops with
  | nil => intro cb h; simpa [applyOps] using h
  | cons op ops ih =>
    intro cb h
    exact ih _ (cbInvStrong_applyOp cb op h)

theorem cbInvStrong_reachable (cb : CircuitBreaker) (h : Reachable cb) :
    CBInvStrong cb := by
  obtain ⟨ops, rfl⟩ := h
  refine cbInvStrong_applyOps ops CircuitBreaker.init ?_
  intro h
  simp [CircuitBreaker.init] at h

theorem cbInv_applyOp (cb : CircuitBreaker) (op : CBOp)
    (h : CBInv cb) : CBInv (applyOp cb op) := by
  cases op with
  | canExec now =>
    simp only [CBInv, applyOp] at *
    cases hs : cb.state with
    | closed => simp [can_execute, hs]
    | opened =>
      have hcount := h hs
      simp only [can_execute, hs]
      split <;> simp_all
    | halfOpen => simp [can_execute, hs]
  | recSuccess =>
    simp [CBInv, applyOp, record_success]
  | recFail now =>
    simp only [CBInv, applyOp, record_failure] at *
    split
    · intro _; omega
    · intro hop
      have := h hop
      omega

theorem cbInv_applyOps (ops : List CBOp) :
    ∀ cb : CircuitBreaker, CBInv cb → CBInv (applyOps cb ops) := by
  induction ops with
  | nil => intro cb h; simpa [applyOps] using h
  | cons op ops ih =>
    intro cb h
    exact ih _ (cbInv_applyOp cb op h)

theorem iterFail_count (tf : Nat → Int) (cb : CircuitBreaker) :
    ∀ n, (iterFail tf n cb).failure_count = cb.failure_count + n := by
  intro n
  induction n with
  | zero => simp [iterFail]
  | succ n ih => simp [iterFail, record_failure, ih]; omega

theorem iterFail_threshold (tf : Nat → Int) (cb : CircuitBreaker) :
    ∀ n, (iterFail tf n cb).failure_threshold = cb.failure_threshold := by
  intro n
  induction n with
  | zero => simp [iterFail]
  | succ n ih => simp [iterFail, record_failure, ih]

theorem iterFail_opened (tf : Nat → Int) (cb : CircuitBreaker) (n : Nat)
    (h : cb.failure_threshold ≤ cb.failure_count + n + 1) :
    (iterFail tf (n + 1) cb).state = CBState.opened := by
  have hcount := iterFail_count tf cb n
  have hthr := iterFail_threshold tf cb n
  have hcond : (iterFail tf n cb).failure_threshold ≤
      (iterFail tf n cb).failure_count + 1 := by
    rw [hcount, hthr]; omega
  simp only [iterFail, record_failure, if_pos hcond]

theorem iterFail_closed (tf : Nat → Int) :
    ∀ n, n < CircuitBreaker.init.failure_threshold →
      (iterFail tf n CircuitBreaker.init).state = CBState.closed := by
  intro n
  induction n with
  | zero => intro _; rfl
  | succ n ih =>
    intro h
    have hn : n < CircuitBreaker.init.failure_threshold := Nat.lt_of_succ_lt h
    have hcount := iterFail_count tf CircuitBreaker.init n
    have hthr := iterFail_threshold tf CircuitBreaker.init n
    simp only [iterFail, record_failure]
    rw [if_neg]
    · exact ih hn
    · rw [hcount, hthr]
      simp only [CircuitBreaker.init] at h ⊢
      omega

/-- C5: `can_execute` per-state contract.  In CLOSED it returns `true` and
changes nothing; in OPEN it returns `true` iff the elapsed time since the
last failure strictly exceeds `recovery_timeout`, in which case the same
call moves the state to HALF_OPEN, and otherwise returns `false` changing
nothing; in HALF_OPEN it returns `true` and changes nothing. -/
theorem C5_can_execute_contract (cb : CircuitBreaker) (now : Int) :
    (cb.state = CBState.closed → can_execute cb now = (true, cb)) ∧
    (cb.state = CBState.opened →
      (((can_execute cb now).1 = true) ↔
        now - cb.last_failure_time > cb.recovery_timeout) ∧
      (now - cb.last_failure_time > cb.recovery_timeout →
        can_execute cb now = (true, { cb with state := CBState.halfOpen })) ∧
      (¬ now - cb.last_failure_time > cb.recovery_timeout →
        can_execute cb now = (false, cb))) ∧
    (cb.state = CBState.halfOpen → can_execute cb now = (true, cb)) := by
  refine ⟨?_, ?_, ?_⟩
  · intro h; simp [can_execute, h]
  · intro h
    refine ⟨?_, ?_, ?_⟩
    · by_cases hc : now - cb.last_failure_time > cb.recovery_timeout <;>
        simp [can_execute, h, hc]
    · intro hc; simp [can_execute, h, hc]
    · intro hc; simp [can_execute, h, hc]
  · intro h; simp [can_execute, h]

/-- Witness for C5 at concrete breakers. -/
theorem C5_can_execute_contract_witness :
    can_execute { state := CBState.closed } 7 =
      (true, { state := CBState.closed }) ∧
    can_execute
        { failure_count := 5, last_failure_time := 0, state := CBState.opened } 100 =
      (true, { failure_count := 5, last_failure_time := 0, state := CBState.halfOpen }) ∧
    can_execute
        { failure_count := 5, last_failure_time := 0, state := CBState.opened } 30 =
      (false, { failure_count := 5, last_failure_time := 0, state := CBState.opened }) :=
  ⟨(C5_can_execute_contract { state := CBState.closed } 7).1 rfl,
   (C5_can_execute_contract
      { failure_count := 5, last_failure_time := 0, state := CBState.opened } 100).2.1
      rfl |>.2.1 (by decide),
   (C5_can_execute_contract
      { failure_count := 5, last_failure_time := 0, state := CBState.opened } 30).2.1
      rfl |>.2.2 (by decide)⟩

/-- C6: the predicate `state = OPEN → failure_count ≥ failure_threshold`
holds for the freshly constructed breaker, is preserved by every
operation, hence holds in every reachable state; and from the fresh
CLOSED breaker, `n` consecutive `record_failure` calls leave the state
CLOSED for every `n` below the threshold and make it OPEN exactly at the
threshold. -/
theorem C6_open_invariant_and_threshold :
    CBInv CircuitBreaker.init ∧
    (∀ cb op, CBInv cb → CBInv (applyOp cb op)) ∧
    (∀ ops, CBInv (applyOps CircuitBreaker.init ops)) ∧
    (∀ tf n, n < CircuitBreaker.init.failure_threshold →
      (iterFail tf n CircuitBreaker.init).state = CBState.closed) ∧
    (∀ tf, (iterFail tf CircuitBreaker.init.failure_threshold
      CircuitBreaker.init).state = CBState.opened) := by
  refine ⟨?_, cbInv_applyOp, ?_, iterFail_closed, ?_⟩
  · intro h; simp [CircuitBreaker.init] at h
  · intro ops
    refine cbInv_applyOps ops CircuitBreaker.init ?_
    intro h; simp [CircuitBreaker.init] at h
  · intro tf
    show (iterFail tf 5 CircuitBreaker.init).state = CBState.opened
    exact iterFail_opened tf CircuitBreaker.init 4 (by decide)

/-- Witness for C6 at concrete operations and failure counts. -/
theorem C6_open_invariant_and_threshold_witness :
    CBInv (applyOp CircuitBreaker.init (CBOp.recFail 3)) ∧
    (iterFail (fun _ => 0) 4 CircuitBreaker.init).state = CBState.closed ∧
    (iterFail (fun _ => 0) 5 CircuitBreaker.init).state = CBState.opened :=
  ⟨C6_open_invariant_and_threshold.2.1 CircuitBreaker.init (CBOp.recFail 3)
      C6_open_invariant_and_threshold.1,
   C6_open_invariant_and_threshold.2.2.2.1 (fun _ => 0) 4 (by decide),
   C6_open_invariant_and_threshold.2.2.2.2 (fun _ => 0)⟩

/-- C7: from every reachable breaker state whose state is HALF_OPEN, one
`record_failure` call moves the state to OPEN and sets
`last_failure_time` to the current time. -/
theorem C7_half_open_failure_reopens (cb : CircuitBreaker) (now : Int)
    (hr : Reachable cb) (hs : cb.state = CBState.halfOpen) :
    (record_failure cb now).state = CBState.opened ∧
    (record_failure cb now).last_failure_time = now := by
  have hinv := cbInvStrong_reachable cb hr
  have hle : cb.failure_threshold ≤ cb.failure_count := by
    apply hinv
    rw [hs]
    intro h
    exact CBState.noConfusion h
  constructor
  · simp only [record_failure]
    rw [if_pos]
    omega
  · rfl

/-- Operation sequence reaching a HALF_OPEN breaker: five failures at time
0 open the breaker, then a `can_execute` probe at time 100 (past the 60s
recovery timeout) half-opens it. -/
def opsToHalfOpen : List CBOp :=
  [CBOp.recFail 0, CBOp.recFail 0, CBOp.recFail 0, CBOp.recFail 0,
   CBOp.recFail 0, CBOp.canExec 100]

/-- A concrete reachable HALF_OPEN breaker. -/
def cbHalfOpenEx : CircuitBreaker := applyOps CircuitBreaker.init opsToHalfOpen

/-- Witness for C7 at a concrete reachable HALF_OPEN breaker. -/
theorem C7_half_open_failure_reopens_witness :
    (record_failure cbHalfOpenEx 200).state = CBState.opened ∧
    (record_failure cbHalfOpenEx 200).last_failure_time = 200 :=
  C7_half_open_failure_reopens cbHalfOpenEx 200 ⟨opsToHalfOpen, rfl⟩ (by decide)

/-! ## Connection-acquisition retry orchestrator
(`create_mcp_server_with_retry`, main.py lines 151-194)

The subprocess connector is abstracted by `connect : Nat → Option String`
(`none` = the attempt with that index succeeds; `some msg` = it raises an
exception whose message is `msg`), `tfail i` is the `time.time()` value at
attempt `i`'s `record_failure`, and `dur i` the wall-clock seconds attempt
`i` itself takes.  The result records the raised-or-returned outcome, the
final breaker, how many connection attempts ran, how many times
`can_execute` was consulted, the backoff sleeps performed, and the total
elapsed seconds (attempt durations plus sleeps). -/

/-- Outcome of `create_mcp_server_with_retry`: a server was returned, the
breaker denied execution (exception before any attempt), the final attempt
re-raised the connection error, or the loop fell through returning `None`
(possible only when `max_retries = 0`). -/
inductive RetryOutcome
  | got
  | denied (msg : String)
  | failed (msg : String)
  | noServer
  deriving DecidableEq

/-- Observable result of one `create_mcp_server_with_retry` run. -/
structure RetryResult where
  outcome : RetryOutcome
  breaker : CircuitBreaker
  attempts : Nat
  checks : Nat
  sleeps : List Int
  elapsed : Int
  deriving DecidableEq

/-- The `for attempt in range(max_retries)` loop body, by recursion on the
number of remaining iterations; the current attempt index is
`max_retries - remaining`. -/
def retry_loop (connect : Nat → Option String) (tfail dur : Nat → Int)
    (base_delay : Int) (max_retries : Nat) :
    Nat → CircuitBreaker → RetryResult
  | 0, cb =>
    { outcome := RetryOutcome.noServer, breaker := cb, attempts := 0,
      checks := 0, sleeps := [], elapsed := 0 }
  | remaining + 1, cb =>
    let attempt := max_retries - (remaining + 1)
    match connect attempt with
    | none =>
      { outcome := RetryOutcome.got, breaker := record_success cb,
        attempts := 1, checks := 0, sleeps := [], elapsed := dur attempt }
    | some msg =>
      let cb1 := record_failure cb (tfail attempt)
      if remaining = 0 then
        { outcome := RetryOutcome.failed msg, breaker := cb1, attempts := 1,
          checks := 0, sleeps := [], elapsed := dur attempt }
      else
        let delay := base_delay * 2 ^ attempt
        let rest := retry_loop connect tfail dur base_delay max_retries remaining cb1
        { outcome := rest.outcome, breaker := rest.breaker,
          attempts := 1 + rest.attempts, checks := rest.checks,
          sleeps := delay :: rest.sleeps,
          elapsed := dur attempt + delay + rest.elapsed }

/-- Message of the exception raised when the breaker denies execution. -/
def breaker_open_msg (cb : CircuitBreaker) : String :=
  "Circuit breaker is OPEN. MCP service is currently unavailable. State: "
    ++ state_value cb.state

/-- `create_mcp_server_with_retry`: consult the breaker once, then run the
retry loop.  `t0` is the `time.time()` value inside the initial
`can_execute` call. -/
def create_mcp_server_with_retry (cb : CircuitBreaker) (t0 : Int)
    (connect : Nat → Option String) (tfail dur : Nat → Int)
    (max_retries : Nat) (base_delay : Int) : RetryResult :=
  let checked := can_execute cb t0
  if checked.1 then
    let r := retry_loop connect tfail dur base_delay max_retries max_retries checked.2
    { r with checks := r.checks + 1 }
  else
    { outcome := RetryOutcome.denied (breaker_open_msg checked.2),
      breaker := checked.2, attempts := 0, checks := 1, sleeps := [],
      elapsed := 0 }

theorem retry_loop_checks (connect : Nat → Option String) (tfail dur : Nat → Int)
    (base_delay : Int) (max_retries : Nat) :
    ∀ remaining cb,
      (retry_loop connect tfail dur base_delay max_retries remaining cb).checks = 0 := by
  intro remaining
  induction remaining with
  | zero => intro cb; rfl
  | succ n ih =>
    intro cb
    simp only [retry_loop]
    cases h : connect (max_retries - (n + 1)) with
    | none => rfl
    | some msg =>
      by_cases hn : n = 0
      · simp [hn]
      · simp [hn, ih]

theorem retry_loop_all_fail (connect : Nat → Option String) (tfail dur : Nat → Int)
    (base_delay : Int) (max_retries : Nat)
    (hfail : ∀ i, (connect i).isSome) :
    ∀ remaining cb,
      (retry_loop connect tfail dur base_delay max_retries remaining cb).attempts =
        remaining := by
  intro remaining
  induction remaining with
  | zero => intro cb; rfl
  | succ n ih =>
    intro cb
    simp only [retry_loop]
    cases h : connect (max_retries - (n + 1)) with
    | none => exact absurd (hfail (max_retries - (n + 1))) (by simp [h])
    | some msg =>
      by_cases hn : n = 0
      · simp [hn]
      · simp [hn, ih]; omega

theorem can_execute_false_frozen (cb : CircuitBreaker) (t0 : Int)
    (h : (can_execute cb t0).1 = false) : (can_execute cb t0).2 = cb := by
  cases hs : cb.state <;> simp [can_execute, hs] at h ⊢
  split at h
  · simp at h
  · split
    · simp_all
    · rfl

/-- C1 (amended): the retry orchestrator consults the breaker exactly once,
before the first attempt.  If that single check denies execution, it fails
immediately — no attempt is made — with an error whose message includes
the breaker's current state; but a breaker that opens mid-loop does not
abort the remaining attempts: when every attempt fails, all `max_retries`
attempts run regardless of the breaker's evolution. -/
theorem C1_breaker_checked_once_before_loop (cb : CircuitBreaker) (t0 : Int)
    (connect : Nat → Option String) (tfail dur : Nat → Int)
    (max_retries : Nat) (base_delay : Int) :
    (create_mcp_server_with_retry cb t0 connect tfail dur max_retries base_delay).checks = 1 ∧
    ((can_execute cb t0).1 = false →
      create_mcp_server_with_retry cb t0 connect tfail dur max_retries base_delay =
        { outcome := RetryOutcome.denied (breaker_open_msg cb), breaker := cb,
          attempts := 0, checks := 1, sleeps := [], elapsed := 0 }) ∧
    ((can_execute cb t0).1 = true → (∀ i, (connect i).isSome) →
      (create_mcp_server_with_retry cb t0 connect tfail dur max_retries base_delay).attempts =
        max_retries) := by
  refine ⟨?_, ?_, ?_⟩
  · by_cases h : (can_execute cb t0).1 <;>
      simp [create_mcp_server_with_retry, h, retry_loop_checks]
  · intro h
    have hfrozen := can_execute_false_frozen cb t0 h
    simp [create_mcp_server_with_retry, h, hfrozen]
  · intro h hfail
    simp [create_mcp_server_with_retry, h,
      retry_loop_all_fail connect tfail dur base_delay max_retries hfail]

/-- An in-service breaker that denies execution: OPEN with a recent failure. -/
def cbOpenEx : CircuitBreaker :=
  { failure_count := 5, last_failure_time := 0, state := CBState.opened }

/-- Witness for C1: the denied case at a concrete OPEN breaker, and the
all-attempts case at a fresh breaker with an always-failing connector. -/
theorem C1_breaker_checked_once_before_loop_witness :
    create_mcp_server_with_retry cbOpenEx 10 (fun _ => some "boom")
        (fun _ => 11) (fun _ => 1) 3 2 =
      { outcome := RetryOutcome.denied (breaker_open_msg cbOpenEx),
        breaker := cbOpenEx, attempts := 0, checks := 1, sleeps := [],
        elapsed := 0 } ∧
    (create_mcp_server_with_retry CircuitBreaker.init 0 (fun _ => some "boom")
        (fun _ => 1) (fun _ => 1) 3 2).attempts = 3 :=
  ⟨(C1_breaker_checked_once_before_loop cbOpenEx 10 (fun _ => some "boom")
      (fun _ => 11) (fun _ => 1) 3 2).2.1 (by decide),
   (C1_breaker_checked_once_before_loop CircuitBreaker.init 0 (fun _ => some "boom")
      (fun _ => 1) (fun _ => 1) 3 2).2.2 (by decide) (fun _ => by simp)⟩

/-- A breaker one failure short of the threshold, as left by four prior
connection failures. -/
def cbFourFailures : CircuitBreaker :=
  { failure_count := 4, last_failure_time := 0, state := CBState.closed }

/-- Counterexample to C1 as stated: starting one failure short of the
threshold with an always-failing connector, the breaker transitions to
OPEN after the first in-loop `record_failure` (and would deny execution
from then on), yet the orchestrator still performs all three connection
attempts and consults the breaker only once, instead of aborting with a
breaker error after the first attempt. -/
theorem C1_counterexample :
    (record_failure cbFourFailures 1).state = CBState.opened ∧
    (can_execute (record_failure cbFourFailures 1) 2).1 = false ∧
    (create_mcp_server_with_retry cbFourFailures 0 (fun _ => some "boom")
        (fun _ => 1) (fun _ => 1) 3 2).attempts = 3 ∧
    (create_mcp_server_with_retry cbFourFailures 0 (fun _ => some "boom")
        (fun _ => 1) (fun _ => 1) 3 2).checks = 1 ∧
    (create_mcp_server_with_retry cbFourFailures 0 (fun _ => some "boom")
        (fun _ => 1) (fun _ => 1) 3 2).outcome = RetryOutcome.failed "boom" := by
  refine ⟨by decide, by decide, ?_, ?_, ?_⟩ <;> decide

/-! ## Identity extraction
(`extract_user_id_from_history`, main.py lines 86-94) -/

/-- A conversation-history entry: `msg.get('role')` and `msg.get('content')`
(absent keys yield `none`). -/
structure Msg where
  role : Option String
  content : Option String
  deriving DecidableEq

/-- Truthiness of `msg.get('content')`: present and non-empty. -/
def content_truthy : Option String → Bool
  | none => false
  | some s => !s.data.isEmpty

/-- The extraction applied to a matching content string:
`content.split('User ID:')[1].split('.')[0].strip()`. -/
def marker_extract (content : String) : String :=
  pyStrip (pySplitGet0 "." (pySplitGet1 "User ID:" content))

/-- `extract_user_id_from_history`: scan the history for a system-role
entry with truthy content containing `User ID:` and extract from the
first such entry. -/
def extract_user_id_from_history : List Msg → Option String
  | [] => none
  | m :: rest =>
    if m.role == some "system" && content_truthy m.content then
      if containsSub (m.content.getD "") "User ID:" then
        some (marker_extract (m.content.getD ""))
      else extract_user_id_from_history rest
    else extract_user_id_from_history rest

/-- The guard selecting the entry the function extracts from. -/
def system_with_marker (m : Msg) : Bool :=
  m.role == some "system" && content_truthy m.content &&
    containsSub (m.content.getD "") "User ID:"

/-- C10: identity extraction returns the marker-to-dot substring (whitespace
stripped) of the first system-role entry whose truthy content contains the
literal marker `User ID:`, and absence when no system-role entry contains
the marker; on the spec's example content it yields `abc123`. -/
theorem C10_identity_extraction :
    (∀ history : List Msg,
      extract_user_id_from_history history =
        (history.find? system_with_marker).map
          (fun m => marker_extract (m.content.getD ""))) ∧
    marker_extract "User ID: abc123. Do X" = "abc123" ∧
    extract_user_id_from_history
      [{ role := some "system", content := some "Be helpful and concise" }] = none := by
  refine ⟨?_, by decide, by decide⟩
  intro history
  induction history with
  | nil => rfl
  | cons m rest ih =>
    by_cases h1 : (m.role == some "system" && content_truthy m.content) = true
    · by_cases h2 : containsSub (m.content.getD "") "User ID:" = true
      · have hp : system_with_marker m = true := by
          simp only [system_with_marker]
          rw [h1, h2]
          rfl
        simp [extract_user_id_from_history, h1, h2, List.find?, hp]
      · have hp : system_with_marker m = false := by
          simp only [system_with_marker]
          rw [h1]
          simpa using h2
        simp [extract_user_id_from_history, h1, h2, List.find?, hp, ih]
    · have hp : system_with_marker m = false := by
        simp only [system_with_marker]
        rw [Bool.and_eq_false_iff]
        left
        simpa using h1
      simp [extract_user_id_from_history, h1, List.find?, hp, ih]

/-! ## Tool-usage normalizer
(`extract_tool_usage_from_result`, main.py lines 96-137)

Shape (a) is a `tool_calls` list of dict-like records read with
`.get(key, default)`; shape (b) is an `items` list of objects read with
`getattr(item, key, default)` after the guard
`hasattr(item, 'type') and 'tool' in item.type`, where a non-string
`type` attribute makes the `in` test raise (caught by the surrounding
`except`, which degrades the whole extraction to `None`). -/

/-- Opaque JSON-like arguments value; `emptyObj` is the `{}` default. -/
inductive ArgsV
  | emptyObj
  | val (s : String)
  deriving DecidableEq

/-- Shape (a) tool-call record (`tool_call.get(...)` on each field). -/
structure ToolCallRec where
  name : Option String
  arguments : Option ArgsV
  result : Option String
  deriving DecidableEq

/-- The `type` attribute of a shape (b) item: a string, or a value of some
other type (on which `'tool' in item.type` raises `TypeError`). -/
inductive TypeTag
  | str (s : String)
  | nonStr
  deriving DecidableEq

/-- Shape (b) result item (`getattr(item, ..., default)` on each field);
a `none` field models an absent attribute. -/
structure BItem where
  type : Option TypeTag
  name : Option String
  arguments : Option ArgsV
  output : Option String
  deriving DecidableEq

/-- One normalized tool-call record (`{"function": {"name", "arguments"},
"content"}`). -/
structure ToolCallOut where
  function_name : String
  function_arguments : ArgsV
  content : String
  deriving DecidableEq

/-- The normalized report: the record list plus the `has_tools` flag. -/
structure ToolUsage where
  tool_calls : List ToolCallOut
  has_tools : Bool
  deriving DecidableEq

/-- The raw agent result, as probed by the normalizer: an optional
`tool_calls` attribute, an optional `items` attribute, and the
`final_output` text. -/
structure AgentResult where
  tool_calls : Option (List ToolCallRec)
  items : Option (List BItem)
  final_output : String
  deriving DecidableEq

/-- Normalization of one shape (a) record. -/
def map_shape_a (tc : ToolCallRec) : ToolCallOut :=
  { function_name := tc.name.getD "unknown",
    function_arguments := tc.arguments.getD ArgsV.emptyObj,
    content := tc.result.getD "No result" }

/-- The shape (b) loop: collect items whose `type` tag contains `tool`;
an item with a non-string `type` raises (`Except.error`). -/
def shapeB_loop : List BItem → Except Unit (List ToolCallOut)
  | [] => Except.ok []
  | it :: rest =>
    match it.type with
    | none => shapeB_loop rest
    | some TypeTag.nonStr => Except.error ()
    | some (TypeTag.str ty) =>
      if containsSub ty "tool" then
        match shapeB_loop rest with
        | Except.error e => Except.error e
        | Except.ok r =>
          Except.ok ({ function_name := it.name.getD "unknown",
                       function_arguments := it.arguments.getD ArgsV.emptyObj,
                       content := it.output.getD "No result" } :: r)
      else shapeB_loop rest

/-- `extract_tool_usage_from_result`: try shape (a) when `tool_calls` is a
truthy (non-empty) list, otherwise shape (b) when `items` is truthy;
wrap a non-empty collection with `has_tools = true`, and degrade to
`none` on an empty collection or an internal exception. -/
def extract_tool_usage_from_result (result : AgentResult) : Option ToolUsage :=
  let collected : Except Unit (List ToolCallOut) :=
    match result.tool_calls with
    | some (tc :: tcs) => Except.ok ((tc :: tcs).map map_shape_a)
    | _ =>
      match result.items with
      | some (it :: its) => shapeB_loop (it :: its)
      | _ => Except.ok []
  match collected with
  | Except.error _ => none
  | Except.ok [] => none
  | Except.ok (c :: cs) => some { tool_calls := c :: cs, has_tools := true }

/-- C9: the normalizer tries shape (a) first (a truthy `tool_calls` list is
used and `items` is ignored); when both shapes are absent or empty it
returns absence, never an empty-but-present report; whenever it returns a
report the `has_tools` flag is `true` and the record list is non-empty;
and an exception inside the shape (b) scan degrades to absence. -/
theorem C9_normalizer_contract (result : AgentResult) :
    (∀ u, extract_tool_usage_from_result result = some u →
      u.has_tools = true ∧ u.tool_calls ≠ []) ∧
    ((result.tool_calls = none ∨ result.tool_calls = some []) →
      (result.items = none ∨ result.items = some []) →
      extract_tool_usage_from_result result = none) ∧
    (∀ tc tcs, result.tool_calls = some (tc :: tcs) →
      extract_tool_usage_from_result result =
        some { tool_calls := (tc :: tcs).map map_shape_a, has_tools := true }) ∧
    (∀ it its, (result.tool_calls = none ∨ result.tool_calls = some []) →
      result.items = some (it :: its) →
      shapeB_loop (it :: its) = Except.error () →
      extract_tool_usage_from_result result = none) ∧
    (∀ it its, (result.tool_calls = none ∨ result.tool_calls = some []) →
      result.items = some (it :: its) →
      shapeB_loop (it :: its) = Except.ok [] →
      extract_tool_usage_from_result result = none) := by
  refine ⟨?_, ?_, ?_, ?_, ?_⟩
  · intro u hu
    simp only [extract_tool_usage_from_result] at hu
    split at hu
    · simp at hu
    · simp at hu
    · rename_i c cs heq
      simp only [Option.some.injEq] at hu
      subst hu
      exact ⟨rfl, by simp⟩
  · intro ha hb
    rcases ha with ha | ha <;> rcases hb with hb | hb <;>
      simp [extract_tool_usage_from_result, ha, hb]
  · intro tc tcs h
    simp [extract_tool_usage_from_result, h]
  · intro it its ha hb herr
    rcases ha with ha | ha <;>
      simp [extract_tool_usage_from_result, ha, hb, herr]
  · intro it its ha hb hok
    rcases ha with ha | ha <;>
      simp [extract_tool_usage_from_result, ha, hb, hok]

/-- Raw result exposing shape (a) with one tool call named `list_tasks`. -/
def resultShapeA : AgentResult :=
  { tool_calls := some [{ name := some "list_tasks", arguments := none,
                          result := some "3 tasks" }],
    items := none, final_output := "done" }

/-- Raw result with no tool-call data in either shape. -/
def resultNoTools : AgentResult :=
  { tool_calls := none, items := some [], final_output := "done" }

/-- Raw result whose shape (b) scan raises on a non-string `type` tag. -/
def resultBadItem : AgentResult :=
  { tool_calls := none,
    items := some [{ type := some TypeTag.nonStr, name := none,
                     arguments := none, output := none }],
    final_output := "done" }

/-- Witness for C9 at concrete raw results: the spec's `list_tasks`
example, the no-tools example, and the internal-exception example. -/
theorem C9_normalizer_contract_witness :
    extract_tool_usage_from_result resultShapeA =
      some { tool_calls := [{ function_name := "list_tasks",
                              function_arguments := ArgsV.emptyObj,
                              content := "3 tasks" }],
             has_tools := true } ∧
    extract_tool_usage_from_result resultNoTools = none ∧
    extract_tool_usage_from_result resultBadItem = none :=
  ⟨(C9_normalizer_contract resultShapeA).2.2.1 _ _ rfl,
   (C9_normalizer_contract resultNoTools).2.1 (Or.inl rfl) (Or.inr rfl),
   (C9_normalizer_contract resultBadItem).2.2.2.1 _ _ (Or.inl rfl) rfl rfl⟩

/-! ## Chat orchestrator (`chat`, main.py lines 222-321)

The endpoint's effects are abstracted by a `ChatEnv`: the freshly generated
UUID, the clock values, the per-attempt connector outcomes feeding
`create_mcp_server_with_retry` (called with its default arguments
`max_retries = 3`, `base_delay = 2.0`), and the outcome of the
`asyncio.timeout(180)` block once a server object was obtained — the block
either times out (`asyncio.TimeoutError`), raises an exception with some
message (connection context entry, agent construction, or `Runner.run`),
or finishes with a raw agent result. -/

/-- Fixed response text of the turn limiter. -/
def limit_message : String :=
  "This conversation has reached the maximum limit of 5 user messages. Please start a new conversation."

/-- Fixed response text of the `asyncio.TimeoutError` handler. -/
def slow_message : String :=
  "The TaskBoard service is taking too long to respond. This might be due to network issues or server load. Please try again in a few minutes."

/-- Fixed response text of the top-level exception handler. -/
def tech_difficulties_message : String :=
  "I\x27m experiencing technical difficulties. Please try again in a moment."

/-- Advisory for errors mentioning `circuit breaker`. -/
def breaker_advisory : String :=
  "The TaskBoard service is temporarily unavailable due to multiple connection failures. Please try again in a few minutes."

/-- Advisory for errors mentioning `timeout`. -/
def timeout_advisory : String :=
  "The TaskBoard service connection timed out. Please try again."

/-- Advisory for errors mentioning `connection` or `connect`. -/
def connection_advisory : String :=
  "Unable to connect to the TaskBoard service. Please check your connection and try again."

/-- Advisory for errors mentioning `invalid url`. -/
def config_advisory : String :=
  "There\x27s a configuration issue with the TaskBoard server URL. Please check the server configuration."

/-- Generic advisory: the only one embedding the raw error text. -/
def generic_advisory (msg : String) : String :=
  "TaskBoard service error: " ++ msg ++ ". The service may be temporarily unavailable."

/-- The `except Exception as mcp_error` classifier (main.py lines 296-306):
case-insensitive substring matching on the error message. -/
def classify_error (msg : String) : String :=
  let l := pyLower msg
  if containsSub l "circuit breaker" then breaker_advisory
  else if containsSub l "timeout" then timeout_advisory
  else if containsSub l "connection" || containsSub l "connect" then connection_advisory
  else if containsSub l "invalid url" then config_advisory
  else generic_advisory msg

/-- Outcome of the `asyncio.timeout(180)` block, given that a server object
was obtained. -/
inductive InnerOutcome
  | timedOut
  | exn (msg : String)
  | finished (result : AgentResult)

/-- The chat request body. -/
structure ChatRequest where
  message : String
  conversation_history : List Msg
  session_id : Option String

/-- The chat response body. -/
structure ChatResponse where
  response : String
  session_id : String
  user_message_count : Nat
  tool_usage : Option ToolUsage
  deriving DecidableEq

/-- Environment of one `chat` call: generated UUID, clock readings,
connector behaviour, and the deadline-block outcome. -/
structure ChatEnv where
  fresh_session : String
  t0 : Int
  connect : Nat → Option String
  tfail : Nat → Int
  dur : Nat → Int
  inner : InnerOutcome
  t_inner : Int

/-- Observable result of one `chat` call: the response, the final breaker
state, and how many connection attempts were made. -/
structure ChatOutcome where
  resp : ChatResponse
  breaker : CircuitBreaker
  attempts : Nat
  deriving DecidableEq

/-- `user_message_count`: 1 for the current message plus the history
entries whose role equals `user`. -/
def count_user_messages (history : List Msg) : Nat :=
  1 + (history.filter (fun m => m.role == some "user")).length

/-- The retry orchestrator as invoked by `chat` (default arguments
`max_retries = 3`, `base_delay = 2.0`). -/
def retry_of (env : ChatEnv) (cb : CircuitBreaker) : RetryResult :=
  create_mcp_server_with_retry cb env.t0 env.connect env.tfail env.dur 3 2

/-- The `asyncio.timeout(180)` block and its two handlers, entered with the
breaker as left by the retry orchestrator. -/
def chat_inner (env : ChatEnv) (session_id : String) (n : Nat)
    (cb : CircuitBreaker) : ChatResponse × CircuitBreaker :=
  match env.inner with
  | InnerOutcome.timedOut =>
    ({ response := slow_message, session_id := session_id,
       user_message_count := n, tool_usage := none },
     record_failure cb env.t_inner)
  | InnerOutcome.exn msg =>
    ({ response := classify_error msg, session_id := session_id,
       user_message_count := n, tool_usage := none },
     record_failure cb env.t_inner)
  | InnerOutcome.finished result =>
    ({ response := result.final_output, session_id := session_id,
       user_message_count := n,
       tool_usage := extract_tool_usage_from_result result },
     record_success cb)

/-- The `chat` endpoint.  Acquisition happens inside the outer `try` but
before (and outside) the `asyncio.timeout(180)` block, so an exception
raised by `create_mcp_server_with_retry` reaches only the top-level
handler.  With `max_retries = 3` the loop always returns a server or
raises, so the `noServer` fall-through is unreachable here. -/
def chat (req : ChatRequest) (env : ChatEnv) (cb : CircuitBreaker) : ChatOutcome :=
  let session_id := req.session_id.getD env.fresh_session
  let n := count_user_messages req.conversation_history
  if n > 5 then
    { resp := { response := limit_message, session_id := session_id,
                user_message_count := n, tool_usage := none },
      breaker := cb, attempts := 0 }
  else
    let _user_id := extract_user_id_from_history req.conversation_history
    let r := retry_of env cb
    match r.outcome with
    | RetryOutcome.got =>
      let p := chat_inner env session_id n r.breaker
      { resp := p.1, breaker := p.2, attempts := r.attempts }
    | RetryOutcome.denied _ =>
      { resp := { response := tech_difficulties_message, session_id := session_id,
                  user_message_count := n, tool_usage := none },
        breaker := r.breaker, attempts := r.attempts }
    | RetryOutcome.failed _ =>
      { resp := { response := tech_difficulties_message, session_id := session_id,
                  user_message_count := n, tool_usage := none },
        breaker := r.breaker, attempts := r.attempts }
    | RetryOutcome.noServer =>
      { resp := { response := tech_difficulties_message, session_id := session_id,
                  user_message_count := n, tool_usage := none },
        breaker := r.breaker, attempts := r.attempts }

theorem chat_inner_fields (env : ChatEnv) (s : String) (n : Nat)
    (cb : CircuitBreaker) :
    (chat_inner env s n cb).1.session_id = s ∧
    (chat_inner env s n cb).1.user_message_count = n := by
  cases hi : env.inner <;> simp [chat_inner, hi]

/-- C8: when `user_message_count` (one plus the user-role history entries)
exceeds 5, `chat` short-circuits to the fixed limit advisory carrying that
count, with the breaker untouched and zero connection attempts. -/
theorem C8_turn_limit_short_circuit (req : ChatRequest) (env : ChatEnv)
    (cb : CircuitBreaker)
    (h : count_user_messages req.conversation_history > 5) :
    chat req env cb =
      { resp := { response := limit_message,
                  session_id := req.session_id.getD env.fresh_session,
                  user_message_count := count_user_messages req.conversation_history,
                  tool_usage := none },
        breaker := cb, attempts := 0 } := by
  simp [chat, h]

/-- A history holding five user-role messages. -/
def historyFiveUsers : List Msg :=
  [{ role := some "user", content := some "m1" },
   { role := some "user", content := some "m2" },
   { role := some "assistant", content := some "r2" },
   { role := some "user", content := some "m3" },
   { role := some "user", content := some "m4" },
   { role := some "user", content := some "m5" }]

/-- Request whose current message is the sixth user message. -/
def reqLimit : ChatRequest :=
  { message := "one more", conversation_history := historyFiveUsers,
    session_id := none }

/-- Environment whose connector would succeed immediately, to show it is
never consulted on the limit path. -/
def envIdle : ChatEnv :=
  { fresh_session := "fresh-uuid", t0 := 0, connect := fun _ => none,
    tfail := fun _ => 0, dur := fun _ => 0, inner := InnerOutcome.timedOut,
    t_inner := 0 }

/-- Witness for C8: five user-role history entries plus the current message
give count 6 and the fixed limit response with no side effects. -/
theorem C8_turn_limit_short_circuit_witness :
    chat reqLimit envIdle CircuitBreaker.init =
      { resp := { response := limit_message, session_id := "fresh-uuid",
                  user_message_count := 6, tool_usage := none },
        breaker := CircuitBreaker.init, attempts := 0 } :=
  C8_turn_limit_short_circuit reqLimit envIdle CircuitBreaker.init (by decide)

/-- Helper: over the string-content model, every `chat` call returns a
well-formed response — the session id is the caller's or the fresh one
and the count is the computed count on every path — and an exception
escaping the acquisition step is caught at the top level and converted
to the generic technical-difficulties response, with no further breaker
mutation. -/
theorem chat_paths_wellformed (req : ChatRequest) (env : ChatEnv)
    (cb : CircuitBreaker) :
    (chat req env cb).resp.session_id = req.session_id.getD env.fresh_session ∧
    (chat req env cb).resp.user_message_count =
      count_user_messages req.conversation_history ∧
    (∀ m, ¬ count_user_messages req.conversation_history > 5 →
      (retry_of env cb).outcome = RetryOutcome.failed m →
      (chat req env cb).resp.response = tech_difficulties_message ∧
      (chat req env cb).breaker = (retry_of env cb).breaker) ∧
    (∀ m, ¬ count_user_messages req.conversation_history > 5 →
      (retry_of env cb).outcome = RetryOutcome.denied m →
      (chat req env cb).resp.response = tech_difficulties_message ∧
      (chat req env cb).breaker = (retry_of env cb).breaker) := by
  refine ⟨?_, ?_, ?_, ?_⟩
  · by_cases h : count_user_messages req.conversation_history > 5
    · simp [chat, h]
    · simp only [chat]
      rw [if_neg h]
      cases ho : (retry_of env cb).outcome <;>
        simp [ho, (chat_inner_fields env _ _ _).1]
  · by_cases h : count_user_messages req.conversation_history > 5
    · simp [chat, h]
    · simp only [chat]
      rw [if_neg h]
      cases ho : (retry_of env cb).outcome <;>
        simp [ho, (chat_inner_fields env _ _ _).2]
  · intro m hn ho
    refine ⟨?_, ?_⟩ <;> simp [chat, hn, ho]
  · intro m hn ho
    refine ⟨?_, ?_⟩ <;> simp [chat, hn, ho]

/-- Environment whose connector always fails with a connection error. -/
def envAcqFail : ChatEnv :=
  { fresh_session := "c2", t0 := 0,
    connect := fun _ => some "Connection refused",
    tfail := fun _ => 0, dur := fun _ => 0,
    inner := InnerOutcome.finished
      { tool_calls := none, items := none, final_output := "ok" },
    t_inner := 0 }

/-! ## Raising-aware request model for the orchestrator boundary (C4)

`conversation_history` is validated only as `List[Dict[str, Any]]`, so a
`content` value may be any JSON value, not just a string.
`extract_user_id_from_history` evaluates `'User ID:' in content`
(main.py line 91) on every truthy system-role content, and that
membership test raises `TypeError` when the value is not a string; the
call sits at main.py line 242, before the `try:` at line 244, so such an
exception propagates past the orchestrator to the HTTP layer.
`ContentVal` mirrors `TypeTag` above: a string, or a (truthy or falsy)
non-string value on which the membership test raises. -/

/-- A raw `content` value: a string, or a non-string JSON value with the
given truthiness, on which `'User ID:' in content` raises. -/
inductive ContentVal
  | str (s : String)
  | nonStr (truthy : Bool)
  deriving DecidableEq

/-- A raw conversation-history entry as admitted by the request schema. -/
structure RawMsg where
  role : Option String
  content : Option ContentVal
  deriving DecidableEq

/-- Python truthiness of `msg.get('content')` over raw contents. -/
def raw_truthy : Option ContentVal → Bool
  | none => false
  | some (ContentVal.str s) => !s.data.isEmpty
  | some (ContentVal.nonStr t) => t

/-- Raising-aware `extract_user_id_from_history`: on a truthy non-string
content the membership test raises (`Except.error`; the exact Python
message depends on the value's runtime type). -/
def extract_user_id_exc : List RawMsg → Except String (Option String)
  | [] => Except.ok none
  | m :: rest =>
    if m.role == some "system" && raw_truthy m.content then
      match m.content with
      | some (ContentVal.str s) =>
        if containsSub s "User ID:" then Except.ok (some (marker_extract s))
        else extract_user_id_exc rest
      | some (ContentVal.nonStr _) =>
        Except.error "TypeError: argument of type is not iterable"
      | none => extract_user_id_exc rest
    else extract_user_id_exc rest

/-- The chat request with raw history entries. -/
structure RawChatRequest where
  message : String
  conversation_history : List RawMsg
  session_id : Option String

/-- `user_message_count` over raw history entries. -/
def count_user_messages_raw (history : List RawMsg) : Nat :=
  1 + (history.filter (fun m => m.role == some "user")).length

/-- Projection of a raw entry onto the string-content model used by the
rest of the development (non-string contents project to absence). -/
def toMsg (m : RawMsg) : Msg :=
  { role := m.role,
    content :=
      match m.content with
      | some (ContentVal.str s) => some s
      | _ => none }

/-- Projection of a raw request. -/
def toChatRequest (req : RawChatRequest) : ChatRequest :=
  { message := req.message,
    conversation_history := req.conversation_history.map toMsg,
    session_id := req.session_id }

/-- Every entry's content is absent or a string — the domain of the
spec's §3 data model, on which identity extraction cannot raise. -/
def StringContents (history : List RawMsg) : Bool :=
  history.all fun m =>
    match m.content with
    | some (ContentVal.nonStr _) => false
    | _ => true

/-- The `chat` endpoint over raw requests.  Session-id resolution, message
counting and identity extraction run before the `try:` at main.py line
244, so an exception raised by the extraction propagates
(`Except.error`); every later step is covered by a handler and yields a
response.  With `max_retries = 3` the `noServer` fall-through is again
unreachable. -/
def chat_raw (req : RawChatRequest) (env : ChatEnv) (cb : CircuitBreaker) :
    Except String ChatOutcome :=
  let session_id := req.session_id.getD env.fresh_session
  let n := count_user_messages_raw req.conversation_history
  if n > 5 then
    Except.ok
      { resp := { response := limit_message, session_id := session_id,
                  user_message_count := n, tool_usage := none },
        breaker := cb, attempts := 0 }
  else
    match extract_user_id_exc req.conversation_history with
    | Except.error e => Except.error e
    | Except.ok _user_id =>
      let r := retry_of env cb
      Except.ok
        (match r.outcome with
         | RetryOutcome.got =>
           let p := chat_inner env session_id n r.breaker
           { resp := p.1, breaker := p.2, attempts := r.attempts }
         | RetryOutcome.denied _ =>
           { resp := { response := tech_difficulties_message,
                       session_id := session_id,
                       user_message_count := n, tool_usage := none },
             breaker := r.breaker, attempts := r.attempts }
         | RetryOutcome.failed _ =>
           { resp := { response := tech_difficulties_message,
                       session_id := session_id,
                       user_message_count := n, tool_usage := none },
             breaker := r.breaker, attempts := r.attempts }
         | RetryOutcome.noServer =>
           { resp := { response := tech_difficulties_message,
                       session_id := session_id,
                       user_message_count := n, tool_usage := none },
             breaker := r.breaker, attempts := r.attempts })

theorem count_raw_eq (history : List RawMsg) :
    count_user_messages_raw history =
      count_user_messages (history.map toMsg) := by
  simp only [count_user_messages_raw, count_user_messages]
  congr 1
  induction history with
  | nil => rfl
  | cons m rest ih =>
    simp only [List.map_cons, List.filter_cons]
    by_cases hr : (m.role == some "user") = true
    · simp [toMsg, hr, ih]
    · simp [toMsg, hr, ih]

theorem extract_exc_ok (history : List RawMsg)
    (hstr : StringContents history = true) :
    extract_user_id_exc history =
      Except.ok (extract_user_id_from_history (history.map toMsg)) := by
  induction history with
  | nil => rfl
  | cons m rest ih =>
    have hsplit := hstr
    simp only [StringContents, List.all_cons, Bool.and_eq_true] at hsplit
    have hrest : StringContents rest = true := hsplit.2
    cases hc : m.content with
    | none =>
      simp [extract_user_id_exc, extract_user_id_from_history, toMsg, hc,
        raw_truthy, content_truthy, ih hrest]
    | some v =>
      cases v with
      | str s =>
        simp only [extract_user_id_exc, extract_user_id_from_history,
          List.map_cons, toMsg, hc, raw_truthy, content_truthy, Option.getD]
        by_cases hg : (m.role == some "system" && !s.data.isEmpty) = true
        · by_cases hc2 : containsSub s "User ID:" = true
          · simp [hg, hc2]
          · simp [hg, hc2, ih hrest]
        · simp [hg, ih hrest]
      | nonStr t =>
        rw [hc] at hsplit
        simp at hsplit

theorem chat_raw_eq_chat (req : RawChatRequest) (env : ChatEnv)
    (cb : CircuitBreaker)
    (hstr : StringContents req.conversation_history = true) :
    chat_raw req env cb = Except.ok (chat (toChatRequest req) env cb) := by
  have hext := extract_exc_ok req.conversation_history hstr
  have hn := count_raw_eq req.conversation_history
  simp only [chat_raw, chat, toChatRequest, hn, hext]
  by_cases h : count_user_messages (req.conversation_history.map toMsg) > 5
  · simp [h]
  · simp only [if_neg h]

/-- C4 (amended): on every input whose history contents are strings (the
spec's §3 data model), `chat` raises nothing past the orchestrator and
returns a well-formed response — the session id is the caller's or the
fresh one, the count is the computed count — and an exception escaping
the acquisition step is caught at the top level and converted to the
generic technical-difficulties response with no further breaker
mutation.  Identity extraction, however, runs before the top-level
`try:`, so an exception raised there — reachable with a truthy
non-string content, which the request schema admits — propagates past
the orchestrator (see the counterexample). -/
theorem C4_no_raise_on_string_contents (req : RawChatRequest) (env : ChatEnv)
    (cb : CircuitBreaker)
    (hstr : StringContents req.conversation_history = true) :
    chat_raw req env cb = Except.ok (chat (toChatRequest req) env cb) ∧
    (chat (toChatRequest req) env cb).resp.session_id =
      req.session_id.getD env.fresh_session ∧
    (chat (toChatRequest req) env cb).resp.user_message_count =
      count_user_messages_raw req.conversation_history ∧
    (∀ m, ¬ count_user_messages_raw req.conversation_history > 5 →
      (retry_of env cb).outcome = RetryOutcome.failed m →
      (chat (toChatRequest req) env cb).resp.response =
        tech_difficulties_message ∧
      (chat (toChatRequest req) env cb).breaker = (retry_of env cb).breaker) ∧
    (∀ m, ¬ count_user_messages_raw req.conversation_history > 5 →
      (retry_of env cb).outcome = RetryOutcome.denied m →
      (chat (toChatRequest req) env cb).resp.response =
        tech_difficulties_message ∧
      (chat (toChatRequest req) env cb).breaker = (retry_of env cb).breaker) := by
  have hwf := chat_paths_wellformed (toChatRequest req) env cb
  have hn := count_raw_eq req.conversation_history
  refine ⟨chat_raw_eq_chat req env cb hstr, hwf.1, ?_, ?_, ?_⟩
  · rw [hn]; exact hwf.2.1
  · intro m hlim ho
    rw [hn] at hlim
    exact hwf.2.2.1 m hlim ho
  · intro m hlim ho
    rw [hn] at hlim
    exact hwf.2.2.2 m hlim ho

/-- A raw request whose single system entry carries a string content. -/
def reqRawGood : RawChatRequest :=
  { message := "hi",
    conversation_history :=
      [{ role := some "system",
         content := some (ContentVal.str "User ID: u7. Be brief") }],
    session_id := some "s1" }

/-- Witness for C4 (amended) at a concrete string-content run whose
acquisition step raises. -/
theorem C4_no_raise_on_string_contents_witness :
    chat_raw reqRawGood envAcqFail CircuitBreaker.init =
      Except.ok (chat (toChatRequest reqRawGood) envAcqFail CircuitBreaker.init) ∧
    (chat (toChatRequest reqRawGood) envAcqFail CircuitBreaker.init).resp.response =
      tech_difficulties_message :=
  ⟨(C4_no_raise_on_string_contents reqRawGood envAcqFail CircuitBreaker.init
      (by decide)).1,
   ((C4_no_raise_on_string_contents reqRawGood envAcqFail CircuitBreaker.init
      (by decide)).2.2.2.1 "Connection refused" (by decide) (by decide)).1⟩

/-- A schema-valid raw request whose system entry carries a truthy
non-string content (e.g. the JSON number 1). -/
def reqRawBad : RawChatRequest :=
  { message := "hi",
    conversation_history :=
      [{ role := some "system", content := some (ContentVal.nonStr true) }],
    session_id := some "s6" }

/-- Environment whose connector and agent would both succeed. -/
def envBenign : ChatEnv :=
  { fresh_session := "c4", t0 := 0, connect := fun _ => none,
    tfail := fun _ => 0, dur := fun _ => 0,
    inner := InnerOutcome.finished
      { tool_calls := none, items := none, final_output := "ok" },
    t_inner := 0 }

/-- Counterexample to C4 as stated: a request the schema admits, whose
system entry's truthy content is not a string, makes identity extraction
raise at main.py line 242 — before the `try:` at line 244 — so `chat`
produces no `ChatResponse` at all and the exception propagates past the
orchestrator boundary to the HTTP layer. -/
theorem C4_counterexample :
    extract_user_id_exc reqRawBad.conversation_history =
      Except.error "TypeError: argument of type is not iterable" ∧
    chat_raw reqRawBad envBenign CircuitBreaker.init =
      Except.error "TypeError: argument of type is not iterable" := by
  exact ⟨rfl, rfl⟩

/-- C2 (amended): a non-timeout failure raised inside the deadline block
(connection context entry, agent construction, or agent invocation) gets
`record_failure` and the case-insensitive substring classification into
the five advisories, the raw text surviving only in the generic fallback;
but a failure raised by the acquisition step itself bypasses the
classifier and reaches only the top-level technical-difficulties handler
(see the counterexample). -/
theorem C2_inner_failures_classified (req : ChatRequest) (env : ChatEnv)
    (cb : CircuitBreaker) (msg : String)
    (hn : ¬ count_user_messages req.conversation_history > 5)
    (hi : env.inner = InnerOutcome.exn msg)
    (hg : (retry_of env cb).outcome = RetryOutcome.got) :
    (chat req env cb).resp.response = classify_error msg ∧
    (chat req env cb).breaker =
      record_failure (retry_of env cb).breaker env.t_inner ∧
    (classify_error msg = breaker_advisory ∨
     classify_error msg = timeout_advisory ∨
     classify_error msg = connection_advisory ∨
     classify_error msg = config_advisory ∨
     classify_error msg = generic_advisory msg) := by
  refine ⟨?_, ?_, ?_⟩
  · simp [chat, hn, hg, chat_inner, hi]
  · simp [chat, hn, hg, chat_inner, hi]
  · simp only [classify_error]
    split_ifs <;> simp

/-- Environment whose acquisition succeeds at once and whose deadline block
then raises a read-timeout error. -/
def envInnerExn : ChatEnv :=
  { fresh_session := "w2", t0 := 0, connect := fun _ => none,
    tfail := fun _ => 0, dur := fun _ => 0,
    inner := InnerOutcome.exn "Read timeout", t_inner := 7 }

/-- A plain single-message request for the C2 witness. -/
def reqPlainB : ChatRequest :=
  { message := "hi", conversation_history := [], session_id := some "s2" }

/-- Witness for C2 at a concrete inner failure classified as a timeout. -/
theorem C2_inner_failures_classified_witness :
    (chat reqPlainB envInnerExn CircuitBreaker.init).resp.response =
      timeout_advisory ∧
    (chat reqPlainB envInnerExn CircuitBreaker.init).breaker =
      record_failure (retry_of envInnerExn CircuitBreaker.init).breaker 7 :=
  ⟨by
    have h := (C2_inner_failures_classified reqPlainB envInnerExn
      CircuitBreaker.init "Read timeout" (by decide) rfl (by decide)).1
    rw [h]
    decide,
   (C2_inner_failures_classified reqPlainB envInnerExn CircuitBreaker.init
      "Read timeout" (by decide) rfl (by decide)).2.1⟩

/-- A plain single-message request for the C2 counterexample. -/
def reqPlainC : ChatRequest :=
  { message := "hi", conversation_history := [], session_id := some "s3" }

/-- Counterexample to C2 as stated: a connection-acquisition failure (step
5) is raised outside the deadline block, so it reaches only the top-level
handler — the response is the generic technical-difficulties text, not the
connection advisory the classifier would give this message, and the chat
orchestrator adds no `record_failure` beyond those of the retry loop. -/
theorem C2_counterexample :
    (retry_of envAcqFail CircuitBreaker.init).outcome =
      RetryOutcome.failed "Connection refused" ∧
    classify_error "Connection refused" = connection_advisory ∧
    (chat reqPlainC envAcqFail CircuitBreaker.init).resp.response =
      tech_difficulties_message ∧
    tech_difficulties_message ≠ connection_advisory ∧
    (chat reqPlainC envAcqFail CircuitBreaker.init).breaker =
      (retry_of envAcqFail CircuitBreaker.init).breaker := by
  refine ⟨by decide, by decide, by decide, by decide, by decide⟩

/-- C3 (amended): the 180-second deadline wraps only the block entered
after acquisition (connection context entry, agent construction and
invocation, result production); when it elapses there, `record_failure`
is called exactly once on the post-acquisition breaker and `chat` returns
the fixed slow-service advisory.  The retry orchestrator's attempts and
backoff sleeps run before the deadline starts (see the counterexample). -/
theorem C3_deadline_wraps_inner_block_only (req : ChatRequest) (env : ChatEnv)
    (cb : CircuitBreaker)
    (hn : ¬ count_user_messages req.conversation_history > 5)
    (hg : (retry_of env cb).outcome = RetryOutcome.got)
    (hi : env.inner = InnerOutcome.timedOut) :
    (chat req env cb).resp.response = slow_message ∧
    (chat req env cb).breaker =
      record_failure (retry_of env cb).breaker env.t_inner ∧
    (chat req env cb).breaker.failure_count =
      (retry_of env cb).breaker.failure_count + 1 := by
  refine ⟨?_, ?_, ?_⟩ <;> simp [chat, hn, hg, chat_inner, hi, record_failure]

/-- Environment whose acquisition succeeds at once and whose deadline block
then times out. -/
def envTimeout : ChatEnv :=
  { fresh_session := "w3", t0 := 0, connect := fun _ => none,
    tfail := fun _ => 0, dur := fun _ => 0,
    inner := InnerOutcome.timedOut, t_inner := 190 }

/-- A plain single-message request for the C3 witness. -/
def reqPlainD : ChatRequest :=
  { message := "hi", conversation_history := [], session_id := some "s4" }

/-- Witness for C3: an agent invocation that never returns yields the
slow-service advisory and a breaker failure-count increment of exactly 1. -/
theorem C3_deadline_wraps_inner_block_only_witness :
    (chat reqPlainD envTimeout CircuitBreaker.init).resp.response =
      slow_message ∧
    (chat reqPlainD envTimeout CircuitBreaker.init).breaker.failure_count = 1 :=
  ⟨(C3_deadline_wraps_inner_block_only reqPlainD envTimeout CircuitBreaker.init
      (by decide) (by decide) rfl).1,
   by decide⟩

/-- Connector failing slowly on the first two attempts and succeeding on
the third. -/
def connSlowTwice : Nat → Option String :=
  fun i => if i < 2 then some "slow handshake" else none

/-- Environment whose acquisition phase alone takes 366 seconds (two
120-second failing attempts, backoff sleeps of 2 and 4 seconds, one
120-second successful attempt) before a normally-finishing invocation. -/
def envSlowAcq : ChatEnv :=
  { fresh_session := "c3", t0 := 0, connect := connSlowTwice,
    tfail := fun _ => 0, dur := fun _ => 120,
    inner := InnerOutcome.finished
      { tool_calls := none, items := none, final_output := "All tasks listed." },
    t_inner := 400 }

/-- A plain single-message request for the C3 counterexample. -/
def reqPlainE : ChatRequest :=
  { message := "hi", conversation_history := [], session_id := some "s5" }

/-- Counterexample to C3 as stated: the acquisition phase (attempts plus
backoff sleeps) runs for 366 seconds — past the 180-second deadline the
claim says wraps it — yet the run completes normally with the agent's
final output and no slow-service advisory and no `record_failure`
(the breaker ends reset by `record_success`), because the deadline only
starts after `create_mcp_server_with_retry` has returned. -/
theorem C3_counterexample :
    (retry_of envSlowAcq CircuitBreaker.init).elapsed = 366 ∧
    ((180 : Int) < 366) ∧
    (chat reqPlainE envSlowAcq CircuitBreaker.init).resp.response =
      "All tasks listed." ∧
    "All tasks listed." ≠ slow_message ∧
    (chat reqPlainE envSlowAcq CircuitBreaker.init).breaker.failure_count = 0 ∧
    (chat reqPlainE envSlowAcq CircuitBreaker.init).breaker.state =
      CBState.closed := by
  refine ⟨by decide, by decide, by decide, by decide, by decide, by decide⟩

end TaskBoard
